import Mathlib

/-!
Verification of the zerodev-sdk client library (ZeroDevSigner.ts,
GnosisAccountAPI.ts) against its natural-language specification.
The TypeScript source is shallowly embedded: each method becomes a pure
Lean function over explicit state; JavaScript `undefined`/`null` become
`Option`, thrown errors become `Except`, and byte strings become
`List Nat` (one entry per byte, each < 256).
-/

namespace ZeroDev

/-! ### JSON values and the relay-error translation (ZeroDevSigner.unwrapError)

`unwrapError(errorIn)` in ZeroDevSigner.ts:
```
if (errorIn.body != null) {
  const errorBody = JSON.parse(errorIn.body)
  let paymasterInfo: string = ''
  let failedOpMessage: string | undefined = errorBody?.error?.message
  if (failedOpMessage?.includes('FailedOp') === true) {
    const matched = failedOpMessage.match(/FailedOp\((.*)\)/)
    if (matched != null) {
      const split = matched[1].split(',')
      paymasterInfo = `(paymaster address: $\x7bsplit[1]\x7d)`
      failedOpMessage = split[2]
    }
  }
  const error = new Error(`The bundler has failed to include UserOperation in a batch: $\x7bfailedOpMessage\x7d $\x7bpaymasterInfo\x7d)`)
  error.stack = errorIn.stack
  return error
}
return errorIn
```
The body, when present, is modelled as an already-parsed JSON value
(`JSON.parse` succeeding); a non-string `error.message` field is modelled
as absent, matching the fact that the `includes` test is only taken for
string messages in the inputs of interest. -/
inductive Json where
  | str (s : String)
  | num (n : Int)
  | obj (fields : List (String × Json))
  | arr (elems : List Json)
  | bool (b : Bool)
  | null
deriving Repr

def Json.getField : Json → String → Option Json
  | .obj fields, k => fields.lookup k
  | _, _ => none

def Json.asStr : Json → Option String
  | .str s => some s
  | _ => none

/-- JavaScript template-literal interpolation of a possibly-undefined string:
`undefined` prints as the text "undefined". -/
def jsUndef (o : Option String) : String := o.getD "undefined"

/-- Whether the first list is an initial segment of the second. -/
def leadsList : List Char → List Char → Bool
  | [], _ => true
  | _ :: _, [] => false
  | p :: ps, c :: cs => p == c && leadsList ps cs

/-- Split a character list at every non-overlapping occurrence of the
(non-empty) separator, scanning left to right — the semantics of
JavaScript `String.split` and Lean `String.splitOn`, written on character
lists so that it reduces inside the kernel. -/
def splitOnListGo (sep : List Char) : Nat → List Char → List Char → List (List Char)
  | _, [], acc => [acc.reverse]
  | 0, l, acc => [acc.reverse ++ l]
  | fuel + 1, c :: cs, acc =>
    if leadsList sep (c :: cs) ∧ sep ≠ [] then
      acc.reverse :: splitOnListGo sep fuel (cs.drop (sep.length - 1)) []
    else
      splitOnListGo sep fuel cs (c :: acc)

/-- JavaScript `s.split(sep)` for a non-empty separator.  The fuel
argument is the input length: each step of `splitOnListGo` consumes at
least one character, so the zero-fuel fallback is never reached. -/
def jsSplit (s sep : String) : List String :=
  (splitOnListGo sep.data s.data.length s.data []).map String.mk

/-- JavaScript `s.includes(pat)`: substring containment test. -/
def jsIncludes (s pat : String) : Bool := (jsSplit s pat).length > 1

/-- JavaScript `s.startsWith(pre)` on kernel-reducible character lists. -/
def jsLeads (s pre : String) : Bool := leadsList pre.data s.data

/-- JavaScript `s.toLowerCase()` on kernel-reducible character lists. -/
def jsToLower (s : String) : String := String.mk (s.data.map Char.toLower)

/-- The capture group of the JavaScript regex match
`s.match(/FailedOp\((.*)\)/)`: the text strictly between the first
occurrence of "FailedOp(" and the last ")" following it (the `.*` is
greedy); `none` when the pattern does not match. -/
def failedOpCapture (s : String) : Option String :=
  match jsSplit s "FailedOp(" with
  | [] => none
  | [_] => none
  | _ :: rest =>
    let tail := String.intercalate "FailedOp(" rest
    match jsSplit tail ")" with
    | [] => none
    | [_] => none
    | parts => some (String.intercalate ")" parts.dropLast)

/-- The pair (failedOpMessage, paymasterInfo) computed by `unwrapError`
from a parsed JSON body: the nested `error.message` is probed, and when it
contains a "FailedOp(...)" pattern the capture is split on commas,
paymaster info taken from field 1 and the message replaced by field 2
(JavaScript out-of-range indexing yielding `undefined`). -/
def unwrapParts (body : Json) : Option String × String :=
  let failedOpMessage : Option String :=
    ((body.getField "error").bind (fun e => e.getField "message")).bind Json.asStr
  match failedOpMessage with
  | some m =>
    if jsIncludes m "FailedOp" then
      match failedOpCapture m with
      | some inner =>
        let split := jsSplit inner ","
        (split.get? 2, "(paymaster address: " ++ jsUndef (split.get? 1) ++ ")")
      | none => (failedOpMessage, "")
    else (failedOpMessage, "")
  | none => (none, "")

/-- A relay-level error object as seen by `unwrapError`: an optional body
(parsed JSON when present) and an optional stack trace. -/
structure RelayError where
  body : Option Json
  stack : Option String
deriving Repr

/-- The result of `unwrapError`: either the original error object returned
unchanged, or a freshly constructed `Error` with the given message and the
original stack. -/
inductive UnwrapResult where
  | original (e : RelayError)
  | wrapped (message : String) (stack : Option String)
deriving Repr

/-- Shallow embedding of `ZeroDevSigner.unwrapError`. -/
def unwrapError (errorIn : RelayError) : UnwrapResult :=
  match errorIn.body with
  | some errorBody =>
    .wrapped ("The bundler has failed to include UserOperation in a batch: "
        ++ jsUndef (unwrapParts errorBody).1 ++ " " ++ (unwrapParts errorBody).2 ++ ")")
      errorIn.stack
  | none => .original errorIn

/-! ### Nonce selection (GnosisAccountAPI.getNonce)

```
async getNonce(): Promise<BigNumber> {
  if (await this.checkAccountPhantom()) {
    return BigNumber.from(0)
  }
  const accountContract = await this._getAccountContract()
  return await accountContract.nonce()
}
```
`checkAccountPhantom` lives in BaseAccountAPI (outside the given sources);
it is abstracted as the boolean deployment state of the account.  The
on-chain nonce store is a map from account address to sequence number, and
every query of it is recorded in an explicit read trace so that
"no read happens" is expressible. -/
structure ChainState where
  nonceOf : String → Nat
  ethBalance : String → Nat
  erc20BalanceOf : String → String → Nat
  erc1155BalanceOf : String → String → Nat → Nat

/-- A single read of the on-chain nonce store (`accountContract.nonce()`). -/
inductive NonceRead where
  | nonceQuery (accountAddress : String)
deriving Repr, DecidableEq

/-- Shallow embedding of `GnosisAccountAPI.getNonce`: the returned nonce
together with the trace of nonce-store reads performed. -/
def getNonce (phantom : Bool) (accountAddress : String) (chain : ChainState) :
    Nat × List NonceRead :=
  if phantom then (0, [])
  else (chain.nonceOf accountAddress, [NonceRead.nonceQuery accountAddress])

/-! ### delegateCopy (ZeroDevSigner.delegateCopy)

```
delegateCopy(): ZeroDevSigner {
  const delegateAccountAPI = Object.assign(\x7b\x7d, this.smartAccountAPI)
  Object.setPrototypeOf(delegateAccountAPI, Object.getPrototypeOf(this.smartAccountAPI))
  delegateAccountAPI.delegateMode = true
  return new ZeroDevSigner(..., delegateAccountAPI)
}
```
The account API's own mutable fields are modelled as a record;
`Object.assign` copies every field into a fresh object and the
`delegateMode = true` assignment targets only the copy. The function
returns the copy together with the post-call state of the original
object. -/
structure AccountAPIState where
  delegateMode : Bool
  factoryAddress : Option String
  ownerAddress : String
  index : Nat
  accountAddress : Option String
deriving Repr, DecidableEq

def delegateCopy (api : AccountAPIState) : AccountAPIState × AccountAPIState :=
  let delegateAccountAPI := { api with delegateMode := true }
  (delegateAccountAPI, api)

/-! ### transferOwnership (ZeroDevSigner.transferOwnership)

```
const owners = await safe.getOwners();
if (owners.length !== 1) {
  throw new Error('transferOwnership is only supported for single-owner safes')
}
const prevOwner = hexZeroPad('0x01', 20);
return safe.swapOwner(prevOwner, this.originalSigner.getAddress(), newOwner, ...)
```
The issued `swapOwner` call is reified as a record; throwing is `Except.error`
(so no call is issued on the error path). -/
def hexZeroPad (value : String) (length : Nat) : String :=
  let hexDigits := if jsLeads value "0x" then String.mk (value.data.drop 2) else value
  "0x" ++ String.mk (List.replicate (2 * length - hexDigits.length) '0') ++ hexDigits

structure SwapOwnerCall where
  prevOwner : String
  oldOwner : String
  newOwner : String
deriving Repr, DecidableEq

def transferOwnership (owners : List String) (originalSignerAddress newOwner : String) :
    Except String SwapOwnerCall :=
  if owners.length ≠ 1 then
    .error "transferOwnership is only supported for single-owner safes"
  else
    .ok { prevOwner := hexZeroPad "0x01" 20
          oldOwner := originalSignerAddress
          newOwner := newOwner }

/-! ### getAccountInitCode (GnosisAccountAPI.getAccountInitCode)

```
const ownerAddress = await this.owner.getAddress()
for (let addr of ['0x0d68...', '0xd19B...', '0x7AeC...', '0x3cE0...']) {
  if (addr.toLowerCase() == ownerAddress.toLowerCase()) {
    this.factoryAddress = '0x5d7a58eFbC95f5b3Da446D9496D73a6E9D57b0a4'
  }
}
if (this.factory == null) {
  if (this.factoryAddress != null && this.factoryAddress !== '') {
    this.factory = GnosisSafeAccountFactory__factory.connect(this.factoryAddress, this.provider)
  } else {
    throw new Error('no factory to get initCode')
  }
}
return hexConcat([this.factory.address,
  this.factory.interface.encodeFunctionData('createAccount', [ownerAddress, this.index])])
```
The mutable fields `factoryAddress` and `factory` (the cached connected
factory contract, represented by its address) are threaded explicitly; the
external contract-call encoder `encodeFunctionData('createAccount', ...)`
is a parameter `encodeCreateAccount`. -/
def migratedOwners : List String :=
  ["0x0d68adA5ba372a508Cd76f46000292028E64B1f8",
   "0xd19B624010d6bd0223658059Ac892514e41676B7",
   "0x7AeCA2dFf97B9692E17a1fa64E42d527179624d3",
   "0x3cE0223eDBfA89eCDf9Dc85abB3d1b7361B24354"]

def migrationFactoryAddress : String := "0x5d7a58eFbC95f5b3Da446D9496D73a6E9D57b0a4"

/-- The mutable state of a GnosisAccountAPI relevant to init-code building. -/
structure GnosisAPIState where
  factoryAddress : Option String
  factory : Option String
  ownerAddress : String
  index : Nat
deriving Repr, DecidableEq

/-- ethers `hexConcat` of two hex strings: strip the "0x" prefixes and
concatenate under a single "0x". -/
def stripHexMark (s : String) : String := if jsLeads s "0x" then String.mk (s.data.drop 2) else s

def hexConcat2 (a b : String) : String := "0x" ++ stripHexMark a ++ stripHexMark b

def getAccountInitCode (encodeCreateAccount : String → Nat → String)
    (st : GnosisAPIState) : Except String (String × GnosisAPIState) :=
  let fa : Option String :=
    if migratedOwners.any (fun addr => jsToLower addr == jsToLower st.ownerAddress) then
      some migrationFactoryAddress
    else st.factoryAddress
  let st1 : GnosisAPIState := { st with factoryAddress := fa }
  match st1.factory with
  | some f =>
    .ok (hexConcat2 f (encodeCreateAccount st.ownerAddress st.index), st1)
  | none =>
    match fa with
    | some addr =>
      if addr ≠ "" then
        .ok (hexConcat2 addr (encodeCreateAccount st.ownerAddress st.index),
             { st1 with factory := some addr })
      else .error "no factory to get initCode"
    | none => .error "no factory to get initCode"

/-! ### Byte strings and ABI encoding (ZeroDevSigner.signMessage)

Hex strings of the source are modelled at the byte level: a byte string is
a `List Nat` with one entry per byte.  `signMessage` computes
```
let sig = fixSignedData(await this.originalSigner.signMessage(dataHash))
if (await this.smartAccountAPI.checkAccountPhantom()) {
  const coder = new ethers.utils.AbiCoder()
  sig = coder.encode(['address', 'bytes', 'bytes'], [
    await this.smartAccountAPI.getFactoryAddress(),
    await this.smartAccountAPI.getFactoryAccountInitCode(),
    sig,
  ]) + '6492649264926492649264926492649264926492649264926492649264926492'
}
return sig
```
The raw signature (already passed through `fixSignedData`), the factory
address and the factory init code are inputs; `coder.encode` is the
standard ABI encoding of the tuple `(address, bytes, bytes)`: a 96-byte
head (left-padded address word, then the two tail offsets) followed by the
two length-prefixed, right-padded byte strings. -/
def natToBytesBE : Nat → Nat → List Nat
  | 0, _ => []
  | w + 1, n => natToBytesBE w (n / 256) ++ [n % 256]

def fromBytesBE (bs : List Nat) : Nat := bs.foldl (fun a b => a * 256 + b) 0

/-- Right-pad a byte string with zeros to a multiple of 32 bytes. -/
def padRight32 (bs : List Nat) : List Nat :=
  bs ++ List.replicate ((32 - bs.length % 32) % 32) 0

/-- The tail encoding of a dynamic `bytes` value: 32-byte big-endian
length word followed by the zero-padded contents. -/
def abiBytesTail (bs : List Nat) : List Nat := natToBytesBE 32 bs.length ++ padRight32 bs

/-- ABI encoding of the tuple `(address, bytes, bytes)` as produced by
`coder.encode(['address', 'bytes', 'bytes'], [factory, initCode, sig])`. -/
def abiEncodeAddressBytesBytes (factoryAddress initCode sig : List Nat) : List Nat :=
  (List.replicate 12 0 ++ factoryAddress)
    ++ natToBytesBE 32 96
    ++ natToBytesBE 32 (96 + (abiBytesTail initCode).length)
    ++ abiBytesTail initCode ++ abiBytesTail sig

/-- The fixed ERC-6492 magic value appended in `signMessage`: the 32-byte
string whose hex spelling is "6492" repeated sixteen times. -/
def magicValue6492 : List Nat := (List.replicate 16 [0x64, 0x92]).flatten

/-- Shallow embedding of the wrapping step of `ZeroDevSigner.signMessage`:
`rawSig` is the (fixed) signature produced by the owner signer. -/
def signMessageWrap (phantom : Bool) (factoryAddress initCode rawSig : List Nat) :
    List Nat :=
  if phantom then
    abiEncodeAddressBytesBytes factoryAddress initCode rawSig ++ magicValue6492
  else rawSig

/-- The 32-byte word of `bs` starting at byte offset `off`. -/
def word32At (bs : List Nat) (off : Nat) : List Nat := (bs.drop off).take 32

/-- Modelled from the spec: the inverse of the meta-signature packing
("Packing must be reversible"), absent from the given sources.  It strips
the fixed 32-byte suffix, reads the third tuple component's offset from
the head word at byte 64, reads the length word there, and extracts the
raw signature bytes. -/
def unwrapSig (blob : List Nat) : List Nat :=
  let encoded := blob.take (blob.length - 32)
  let off2 := fromBytesBE (word32At encoded 64)
  let len := fromBytesBE (word32At encoded off2)
  (encoded.drop (off2 + 32)).take len

/-! ### Asset sweep (ZeroDevSigner.transferAllAssets)

```
const calls = assets.map(async asset => {
  switch (asset.assetType) {
    case AssetType.ETH:
      return { to: to, value: asset.amount ? asset.amount : await this.provider!.getBalance(selfAddress), data: '0x' }
    case AssetType.ERC20:
      const erc20 = getERC20Contract(this.provider!, asset.address!)
      return { to: asset.address!, value: 0,
               data: erc20.interface.encodeFunctionData('transfer', [to, asset.amount ? asset.amount : await erc20.balanceOf(selfAddress)]) }
    case AssetType.ERC721: ...
    case AssetType.ERC1155: ...
  }
})
const awaitedCall = await Promise.all(calls);
return this.execBatch(awaitedCall, options);
```
Amounts are modelled as JavaScript numbers, so the truthiness test
`asset.amount ?` is false for an absent amount and for 0.  Balance reads
(`getBalance`, `balanceOf`) consult the current `ChainState` at build
time.  The external ethers call encoders are parameters. -/
inductive AssetType where
  | eth
  | erc20
  | erc721
  | erc1155
deriving Repr, DecidableEq

structure AssetTransfer where
  assetType : AssetType
  address : Option String
  tokenId : Option Nat
  amount : Option Nat
deriving Repr, DecidableEq

structure BuiltCall where
  toAddress : String
  value : Nat
  data : String
deriving Repr, DecidableEq

/-- JavaScript truthiness of an optional numeric field. -/
def jsTruthyNum : Option Nat → Bool
  | some n => n != 0
  | none => false

/-- The external ethers `Interface.encodeFunctionData` collaborators used
by `transferAllAssets` (spec 6: the contract-call encoder is an external
collaborator; the core only encodes through it). -/
structure CallEncoders where
  erc20Transfer : String → Nat → String
  erc721TransferFrom : String → String → Nat → String
  erc1155SafeTransferFrom : String → String → Nat → Nat → String → String

/-- The call built for one asset record (the body of the `assets.map`).
Absent `address`/`tokenId` fields are modelled by defaults; the claims only
exercise records where the fields the code dereferences are present. -/
def buildAssetCall (chain : ChainState) (enc : CallEncoders)
    (selfAddress dest : String) (asset : AssetTransfer) : BuiltCall :=
  match asset.assetType with
  | .eth =>
    { toAddress := dest
      value := if jsTruthyNum asset.amount then asset.amount.getD 0
               else chain.ethBalance selfAddress
      data := "0x" }
  | .erc20 =>
    { toAddress := asset.address.getD ""
      value := 0
      data := enc.erc20Transfer dest
        (if jsTruthyNum asset.amount then asset.amount.getD 0
         else chain.erc20BalanceOf (asset.address.getD "") selfAddress) }
  | .erc721 =>
    { toAddress := asset.address.getD ""
      value := 0
      data := enc.erc721TransferFrom selfAddress dest (asset.tokenId.getD 0) }
  | .erc1155 =>
    { toAddress := asset.address.getD ""
      value := 0
      data := enc.erc1155SafeTransferFrom selfAddress dest (asset.tokenId.getD 0)
        (if jsTruthyNum asset.amount then asset.amount.getD 0
         else chain.erc1155BalanceOf (asset.address.getD "") selfAddress (asset.tokenId.getD 0))
        "0x" }

/-- The batched call list built by `transferAllAssets` and handed to
`execBatch`. -/
def transferAllAssetsCalls (chain : ChainState) (enc : CallEncoders)
    (selfAddress dest : String) (assets : List AssetTransfer) : List BuiltCall :=
  assets.map (buildAssetCall chain enc selfAddress dest)

/-! ### sendTransaction control flow (ZeroDevSigner.sendTransaction)

```
if (transaction.maxFeePerGas || transaction.maxPriorityFeePerGas) {
  transaction.maxFeePerGas = 0
  transaction.maxPriorityFeePerGas = 0
} else {
  transaction.gasPrice = 0
}
const tx: TransactionRequest = await this.populateTransaction(transaction)
await this.verifyAllNecessaryFields(tx)
let userOperation = await this.smartAccountAPI.createSignedUserOp(...)
...
await this.httpRpcClient.sendUserOpToBundler(userOperation)
```
with
```
async verifyAllNecessaryFields(transactionRequest: TransactionRequest): Promise<void> {
  if (transactionRequest.to == null) { throw new Error('Missing call target') }
  if (transactionRequest.data == null && transactionRequest.value == null) {
    throw new Error('Missing call data or value')
  }
}
```
`populateTransaction` is the ethers base-class helper (an external
collaborator); as the source's own comment states, it internally calls
`estimateGas` — the ZeroDevSigner override, which performs the network
call `httpRpcClient.estimateUserOpGas` — whenever the request carries no
`gasLimit`, and fills no `to`/`data`/`value` fields.  The flow is embedded
as the ordered trace of its estimation / throw / signing / submission
steps together with the thrown error message, if any. -/
structure TxRequest where
  toAddress : Option String
  data : Option String
  value : Option Nat
  gasLimit : Option Nat
  maxFeePerGas : Option Nat
  maxPriorityFeePerGas : Option Nat
  gasPrice : Option Nat
deriving Repr, DecidableEq

inductive TxStep where
  | estimateGasCall
  | missingFieldThrow (msg : String)
  | signUserOp
  | submitToBundler
deriving Repr, DecidableEq

/-- Steps that perform a network call: gas estimation against the bundler
and submission to the bundler. -/
def TxStep.isNetwork : TxStep → Bool
  | .estimateGasCall => true
  | .submitToBundler => true
  | _ => false

def TxStep.isMissingFieldThrow : TxStep → Bool
  | .missingFieldThrow _ => true
  | _ => false

/-- Shallow embedding of the `sendTransaction` control flow: the ordered
step trace and the error message it rejects with, if any. -/
def sendTransactionTrace (transaction : TxRequest) : List TxStep × Option String :=
  let populateSteps : List TxStep :=
    if transaction.gasLimit.isNone then [TxStep.estimateGasCall] else []
  if transaction.toAddress.isNone then
    (populateSteps ++ [TxStep.missingFieldThrow "Missing call target"],
     some "Missing call target")
  else if transaction.data.isNone && transaction.value.isNone then
    (populateSteps ++ [TxStep.missingFieldThrow "Missing call data or value"],
     some "Missing call data or value")
  else
    (populateSteps ++ [TxStep.signUserOp, TxStep.submitToBundler], none)

/-- The empty transaction request `\x7b\x7d`. -/
def emptyTxRequest : TxRequest :=
  { toAddress := none, data := none, value := none, gasLimit := none,
    maxFeePerGas := none, maxPriorityFeePerGas := none, gasPrice := none }

/-! ### Concrete instances used by individual claims -/

/-- A relay error whose (present) body parses but whose nested message does
not match the FailedOp pattern. -/
def transportFailureError : RelayError :=
  { body := some (Json.obj [("error", Json.obj [("message", Json.str "some transport failure")])]),
    stack := none }

/-- The parsed JSON body from the spec's error-translation example. -/
def failedOpExampleBody : Json :=
  Json.obj [("error", Json.obj
    [("message", Json.str "FailedOp(0,0xPAYMASTER,AA21 didn\x27t pay prefund)")])]

/-- A GnosisAccountAPI state whose owner is on the hardcoded migration
list (in a different letter case than the listed entry). -/
def migratedOwnerState : GnosisAPIState :=
  { factoryAddress := some "0xFAC", factory := none,
    ownerAddress := "0x0D68ADA5BA372A508CD76F46000292028E64B1F8", index := 0 }

/-- A GnosisAccountAPI state whose owner is not on the migration list. -/
def ordinaryOwnerState : GnosisAPIState :=
  { factoryAddress := some "0xFAC", factory := none,
    ownerAddress := "0xAAAA", index := 0 }

/-! ### Helper lemmas -/

theorem take_len_append {α : Type} (l1 l2 : List α) (n : Nat) (h : l1.length = n) :
    (l1 ++ l2).take n = l1 := by
  subst h
  exact List.take_left l1 l2

theorem drop_len_append {α : Type} (l1 l2 : List α) (n : Nat) (h : l1.length = n) :
    (l1 ++ l2).drop n = l2 := by
  subst h
  exact List.drop_left l1 l2

theorem natToBytesBE_length (w n : Nat) : (natToBytesBE w n).length = w := by
  induction w generalizing n with
  | zero => rfl
  | succ w ih => simp [natToBytesBE, ih]

theorem fromBytesBE_natToBytesBE (w n : Nat) :
    fromBytesBE (natToBytesBE w n) = n % 256 ^ w := by
  induction w generalizing n with
  | zero => simp [natToBytesBE, fromBytesBE, Nat.mod_one]
  | succ w ih =>
    have hstep : fromBytesBE (natToBytesBE w (n / 256) ++ [n % 256])
        = fromBytesBE (natToBytesBE w (n / 256)) * 256 + n % 256 := by
      simp [fromBytesBE, List.foldl_append]
    calc fromBytesBE (natToBytesBE (w + 1) n)
        = fromBytesBE (natToBytesBE w (n / 256)) * 256 + n % 256 := hstep
      _ = (n / 256 % 256 ^ w) * 256 + n % 256 := by rw [ih]
      _ = n % 256 ^ (w + 1) := by
          rw [pow_succ, Nat.mul_comm (256 ^ w) 256, Nat.mod_mul]
          ring

/-! ### Claim theorems -/

/-- C2: `getNonce` returns 0 for a Phantom (undeployed) account without any
read of the on-chain nonce store (the read trace is empty), and for a
Deployed account it returns the account contract's current nonce (with
exactly the one corresponding nonce-store read). -/
theorem c2_getNonce_phantom (accountAddress : String) (chain : ChainState) :
    getNonce true accountAddress chain = (0, []) ∧
    getNonce false accountAddress chain =
      (chain.nonceOf accountAddress, [NonceRead.nonceQuery accountAddress]) := by
  constructor <;> rfl

/-- C7: `delegateCopy` returns an account API identical to the original in
every field except that `delegateMode` is set to true, and the original
account API's fields (including `delegateMode`) are unchanged after the
call. -/
theorem c7_delegateCopy_frame (api : AccountAPIState) :
    (delegateCopy api).1.delegateMode = true ∧
    (delegateCopy api).1.factoryAddress = api.factoryAddress ∧
    (delegateCopy api).1.ownerAddress = api.ownerAddress ∧
    (delegateCopy api).1.index = api.index ∧
    (delegateCopy api).1.accountAddress = api.accountAddress ∧
    (delegateCopy api).2 = api := by
  refine ⟨rfl, rfl, rfl, rfl, rfl, rfl⟩

/-- C10: `transferOwnership` throws (issuing no swapOwner operation)
whenever the safe's owner list does not contain exactly one owner, and for
a single-owner safe it issues a `swapOwner` call whose previous-owner
argument is the constant address
0x0000000000000000000000000000000000000001. -/
theorem c10_transferOwnership_single_owner (owners : List String)
    (originalSignerAddress newOwner : String) :
    (owners.length ≠ 1 →
      transferOwnership owners originalSignerAddress newOwner =
        .error "transferOwnership is only supported for single-owner safes") ∧
    (owners.length = 1 →
      transferOwnership owners originalSignerAddress newOwner =
        .ok { prevOwner := "0x0000000000000000000000000000000000000001"
              oldOwner := originalSignerAddress
              newOwner := newOwner }) := by
  constructor
  · intro h
    simp [transferOwnership, h]
  · intro h
    have hpad : hexZeroPad "0x01" 20 = "0x0000000000000000000000000000000000000001" := by
      decide
    simp [transferOwnership, h, hpad]

theorem c10_transferOwnership_single_owner_witness :
    (transferOwnership ["0xOwnerA", "0xOwnerB"] "0xOrig" "0xNew" =
      .error "transferOwnership is only supported for single-owner safes") ∧
    (transferOwnership ["0xOwnerA"] "0xOrig" "0xNew" =
      .ok { prevOwner := "0x0000000000000000000000000000000000000001"
            oldOwner := "0xOrig"
            newOwner := "0xNew" }) :=
  ⟨(c10_transferOwnership_single_owner ["0xOwnerA", "0xOwnerB"] "0xOrig" "0xNew").1
      (by decide),
   (c10_transferOwnership_single_owner ["0xOwnerA"] "0xOrig" "0xNew").2 (by decide)⟩

/-- C4 counterexample: on the empty request the very first step taken by
`sendTransaction` is the gas-estimation network call performed inside
`populateTransaction` (as the source's own comment notes), and only after
it does the missing-field rejection happen — so the rejection is not
"before any network call" as claimed. -/
theorem c4_counterexample :
    (sendTransactionTrace emptyTxRequest).2 = some "Missing call target" ∧
    (sendTransactionTrace emptyTxRequest).1.head? = some TxStep.estimateGasCall ∧
    TxStep.isNetwork TxStep.estimateGasCall = true := by
  decide

/-- C4 (amended): for every request lacking `to`, or having `to` but
lacking both `data` and `value`, `sendTransaction` rejects with a
missing-field error before signing and before submitting anything to the
bundler — but only after `populateTransaction`, whose gas estimation is a
network call, has run. -/
theorem c4_missing_field_rejection (req : TxRequest)
    (h : req.toAddress = none ∨ (req.data = none ∧ req.value = none)) :
    (∃ msg, (sendTransactionTrace req).2 = some msg ∧
      (msg = "Missing call target" ∨ msg = "Missing call data or value")) ∧
    TxStep.signUserOp ∉ (sendTransactionTrace req).1 ∧
    TxStep.submitToBundler ∉ (sendTransactionTrace req).1 := by
  have hchar : ∃ msg, sendTransactionTrace req =
      ((if req.gasLimit.isNone then [TxStep.estimateGasCall] else []) ++
        [TxStep.missingFieldThrow msg], some msg) ∧
      (msg = "Missing call target" ∨ msg = "Missing call data or value") := by
    rcases hto : req.toAddress with _ | a
    · exact ⟨"Missing call target", by simp [sendTransactionTrace, hto], Or.inl rfl⟩
    · rcases h with h | ⟨hd, hv⟩
      · rw [hto] at h
        cases h
      · exact ⟨"Missing call data or value",
          by simp [sendTransactionTrace, hto, hd, hv], Or.inr rfl⟩
  obtain ⟨msg, htr, hmsg⟩ := hchar
  refine ⟨⟨msg, by rw [htr], hmsg⟩, ?_, ?_⟩ <;>
    · rw [htr]
      intro hmem
      rcases List.mem_append.1 hmem with hm | hm
      · split at hm <;> simp_all
      · simp_all

theorem c4_missing_field_rejection_witness :
    (∃ msg, (sendTransactionTrace emptyTxRequest).2 = some msg ∧
      (msg = "Missing call target" ∨ msg = "Missing call data or value")) ∧
    TxStep.signUserOp ∉ (sendTransactionTrace emptyTxRequest).1 ∧
    TxStep.submitToBundler ∉ (sendTransactionTrace emptyTxRequest).1 :=
  c4_missing_field_rejection emptyTxRequest (Or.inl rfl)

/-- C8: sweeping the asset list [ETH with amount 5, ERC20 token X with no
amount] to destination D builds exactly two batched calls: a direct value
transfer of 5 to D with empty call data, and a zero-value call to token X
whose data encodes transfer(D, currentBalance), where currentBalance is
the token balance read from the chain state at build time. -/
theorem c8_transferAllAssets_sweep (chain : ChainState) (enc : CallEncoders)
    (selfAddress dest tokenX : String) :
    transferAllAssetsCalls chain enc selfAddress dest
      [{ assetType := .eth, address := none, tokenId := none, amount := some 5 },
       { assetType := .erc20, address := some tokenX, tokenId := none, amount := none }] =
      [{ toAddress := dest, value := 5, data := "0x" },
       { toAddress := tokenX, value := 0,
         data := enc.erc20Transfer dest (chain.erc20BalanceOf tokenX selfAddress) }] := by
  rfl

/-- C1 counterexample: a relay error with a present body whose nested
message does not match the FailedOp pattern is NOT returned unchanged —
`unwrapError` replaces it with a freshly built generic bundler-failure
message. -/
theorem c1_counterexample :
    unwrapError transportFailureError =
      .wrapped "The bundler has failed to include UserOperation in a batch: some transport failure )"
        none ∧
    unwrapError transportFailureError ≠ .original transportFailureError := by
  refine ⟨rfl, fun hcontr => ?_⟩
  exact UnwrapResult.noConfusion hcontr

/-- C1 (amended): `unwrapError` returns the original error object
unchanged exactly when the relay error carries no body; whenever a body is
present — even one whose nested message does not match the
FailedOp pattern — it returns a new generic bundler-failure error instead
of the original. -/
theorem c1_unwrap_original_iff_no_body (e : RelayError) :
    unwrapError e = .original e ↔ e.body = none := by
  rcases e with ⟨body, stack⟩
  cases body with
  | none => simp [unwrapError]
  | some b => simp [unwrapError]

/-- C5: whenever the relay error's body holds a nested `error.message`
containing a FailedOp(...) pattern, `unwrapError` splits the matched
capture on commas and raises a bundler-rejection error whose paymaster
info is taken from field 1 of the split and whose reason is field 2. -/
theorem c5_failedOp_translation (e : RelayError) (body : Json) (m inner : String)
    (hbody : e.body = some body)
    (hm : ((body.getField "error").bind (fun j => j.getField "message")).bind Json.asStr
            = some m)
    (hinc : jsIncludes m "FailedOp" = true)
    (hcap : failedOpCapture m = some inner) :
    unwrapParts body =
      ((jsSplit inner ",").get? 2,
       "(paymaster address: " ++ jsUndef ((jsSplit inner ",").get? 1) ++ ")") ∧
    unwrapError e = .wrapped
      ("The bundler has failed to include UserOperation in a batch: "
        ++ jsUndef ((jsSplit inner ",").get? 2) ++ " "
        ++ ("(paymaster address: " ++ jsUndef ((jsSplit inner ",").get? 1) ++ ")") ++ ")")
      e.stack := by
  have hparts : unwrapParts body =
      ((jsSplit inner ",").get? 2,
       "(paymaster address: " ++ jsUndef ((jsSplit inner ",").get? 1) ++ ")") := by
    simp [unwrapParts, hm, hinc, hcap]
  refine ⟨hparts, ?_⟩
  rcases e with ⟨b0, stack⟩
  simp only at hbody
  subst hbody
  simp [unwrapError, hparts]

/-- C5 witness: the spec's example body yields reason
"AA21 didn\x27t pay prefund" and paymaster address "0xPAYMASTER". -/
theorem c5_failedOp_translation_witness :
    unwrapParts failedOpExampleBody =
      (some "AA21 didn\x27t pay prefund", "(paymaster address: 0xPAYMASTER)") ∧
    unwrapError { body := some failedOpExampleBody, stack := none } =
      .wrapped
        "The bundler has failed to include UserOperation in a batch: AA21 didn\x27t pay prefund (paymaster address: 0xPAYMASTER))"
        none := by
  have h := c5_failedOp_translation { body := some failedOpExampleBody, stack := none }
    failedOpExampleBody "FailedOp(0,0xPAYMASTER,AA21 didn\x27t pay prefund)"
    "0,0xPAYMASTER,AA21 didn\x27t pay prefund" rfl (by decide) (by decide) (by decide)
  refine ⟨?_, ?_⟩
  · rw [h.1]
    decide
  · rw [h.2]
    simp only [UnwrapResult.wrapped.injEq, and_true]
    decide

/-- C9: for an owner on the hardcoded migration allow-list (compared
case-insensitively) and a not-yet-connected factory, `getAccountInitCode`
overwrites the stored factory address with the hardcoded migration factory
before building the init code, caches the connected factory at that
address (so subsequent calls use the override), and returns the
concatenation of that address with the encoded createAccount call; for
every other owner the stored factory address is left unchanged and the
returned init code is the concatenation of the configured factory address
with the encoded createAccount(owner, index) call. -/
theorem c9_getAccountInitCode_override (enc : String → Nat → String)
    (st : GnosisAPIState) :
    (migratedOwners.any (fun a => jsToLower a == jsToLower st.ownerAddress) = true →
      st.factory = none →
      getAccountInitCode enc st =
        .ok (hexConcat2 migrationFactoryAddress (enc st.ownerAddress st.index),
             { st with factoryAddress := some migrationFactoryAddress,
                       factory := some migrationFactoryAddress })) ∧
    (migratedOwners.any (fun a => jsToLower a == jsToLower st.ownerAddress) = false →
      (∀ r, getAccountInitCode enc st = .ok r → r.2.factoryAddress = st.factoryAddress) ∧
      (∀ a, st.factory = none → st.factoryAddress = some a → a ≠ "" →
        getAccountInitCode enc st =
          .ok (hexConcat2 a (enc st.ownerAddress st.index),
               { st with factory := some a }))) := by
  constructor
  · intro hmig hfac
    have hne : migrationFactoryAddress ≠ "" := by decide
    simp [getAccountInitCode, hmig, hfac, hne]
  · intro hmig
    constructor
    · intro r hr
      simp only [getAccountInitCode, hmig] at hr
      split at hr
      · rcases hr with ⟨⟩
        rfl
      · split at hr
        · split at hr
          · rcases hr with ⟨⟩
            rfl
          · cases hr
        · cases hr
    · intro a hfac hfa hne
      simp [getAccountInitCode, hmig, hfac, hfa, hne]

/-- C9 witness: a migrated owner (in different letter case) gets the
hardcoded factory override; an ordinary owner keeps the configured
factory address. -/
theorem c9_getAccountInitCode_override_witness :
    getAccountInitCode (fun _ _ => "0xENC") migratedOwnerState =
      .ok ("0x5d7a58eFbC95f5b3Da446D9496D73a6E9D57b0a4ENC",
           { migratedOwnerState with
               factoryAddress := some migrationFactoryAddress,
               factory := some migrationFactoryAddress }) ∧
    getAccountInitCode (fun _ _ => "0xENC") ordinaryOwnerState =
      .ok ("0xFACENC", { ordinaryOwnerState with factory := some "0xFAC" }) := by
  constructor
  · rw [(c9_getAccountInitCode_override (fun _ _ => "0xENC") migratedOwnerState).1
      (by decide) rfl]
    rfl
  · rw [((c9_getAccountInitCode_override (fun _ _ => "0xENC") ordinaryOwnerState).2
      (by decide)).2 "0xFAC" rfl rfl (by decide)]
    rfl

/-- C3: for a Deployed account, `signMessage` returns the raw (fixed)
signature unchanged; for a Phantom account it returns the ABI encoding of
(factory address, factory init code, raw signature) followed by the fixed
32-byte magic value — a constant that takes no inputs at all, hence does
not depend on the owner — so the wrapped blob always ends with that fixed
value. -/
theorem c3_signMessage_meta_wrap (factoryAddress initCode rawSig : List Nat) :
    signMessageWrap false factoryAddress initCode rawSig = rawSig ∧
    signMessageWrap true factoryAddress initCode rawSig =
      abiEncodeAddressBytesBytes factoryAddress initCode rawSig ++ magicValue6492 ∧
    magicValue6492.length = 32 ∧
    ∃ p, signMessageWrap true factoryAddress initCode rawSig = p ++ magicValue6492 :=
  ⟨rfl, rfl, by decide,
   ⟨abiEncodeAddressBytesBytes factoryAddress initCode rawSig, rfl⟩⟩

/-- C6: the Phantom-mode signature packing is reversible — stripping the
fixed 32-byte suffix from the wrapped blob and ABI-decoding the triple
recovers the raw signature exactly — and for a Deployed account the
wrapping returns the signature unchanged.  The side conditions say the
factory address is a 20-byte address and the byte lengths fit in one
ABI word. -/
theorem c6_metaSignature_roundtrip (f ic s : List Nat)
    (hf : f.length = 20)
    (hs : s.length < 256 ^ 32)
    (hoff : 96 + (abiBytesTail ic).length < 256 ^ 32) :
    unwrapSig (signMessageWrap true f ic s) = s ∧
    signMessageWrap false f ic s = s := by
  refine ⟨?_, rfl⟩
  have hM : magicValue6492.length = 32 := by decide
  have hwrap : signMessageWrap true f ic s =
      abiEncodeAddressBytesBytes f ic s ++ magicValue6492 := rfl
  rw [hwrap]
  set E := abiEncodeAddressBytesBytes f ic s with hE
  have hstrip : (E ++ magicValue6492).take ((E ++ magicValue6492).length - 32) = E := by
    rw [List.length_append, hM, Nat.add_sub_cancel]
    exact List.take_left E magicValue6492
  have hEeq1 : E = ((List.replicate 12 0 ++ f) ++ natToBytesBE 32 96) ++
      (natToBytesBE 32 (96 + (abiBytesTail ic).length) ++ (abiBytesTail ic ++ abiBytesTail s)) := by
    rw [hE]
    simp [abiEncodeAddressBytesBytes, List.append_assoc]
  have hlen64 : ((List.replicate 12 0 ++ f) ++ natToBytesBE 32 96).length = 64 := by
    simp [List.length_append, hf, natToBytesBE_length]
  have hW2 : (E.drop 64).take 32 = natToBytesBE 32 (96 + (abiBytesTail ic).length) := by
    rw [hEeq1, drop_len_append _ _ _ hlen64]
    exact take_len_append _ _ _ (natToBytesBE_length 32 _)
  have hEeq2 : E = (((List.replicate 12 0 ++ f) ++ natToBytesBE 32 96) ++
      (natToBytesBE 32 (96 + (abiBytesTail ic).length) ++ abiBytesTail ic)) ++ abiBytesTail s := by
    rw [hE]
    simp [abiEncodeAddressBytesBytes, List.append_assoc]
  have hlenOff : (((List.replicate 12 0 ++ f) ++ natToBytesBE 32 96) ++
      (natToBytesBE 32 (96 + (abiBytesTail ic).length) ++ abiBytesTail ic)).length
        = 96 + (abiBytesTail ic).length := by
    simp [List.length_append, hf, natToBytesBE_length]
    omega
  have hdropOff : E.drop (96 + (abiBytesTail ic).length) = abiBytesTail s := by
    rw [hEeq2]
    exact drop_len_append _ _ _ hlenOff
  have hlenWord : (E.drop (96 + (abiBytesTail ic).length)).take 32 = natToBytesBE 32 s.length := by
    rw [hdropOff]
    exact take_len_append _ _ _ (natToBytesBE_length 32 _)
  have hfinal : (E.drop (96 + (abiBytesTail ic).length + 32)).take s.length = s := by
    have h2 : (E.drop (96 + (abiBytesTail ic).length)).drop 32 = padRight32 s := by
      rw [hdropOff]
      exact drop_len_append _ _ _ (natToBytesBE_length 32 _)
    have h1 : E.drop (96 + (abiBytesTail ic).length + 32) = padRight32 s := by
      rw [← h2, List.drop_drop]
    rw [h1]
    exact take_len_append _ _ _ rfl
  simp only [unwrapSig, word32At]
  rw [hstrip, hW2, fromBytesBE_natToBytesBE, Nat.mod_eq_of_lt hoff, hlenWord,
    fromBytesBE_natToBytesBE, Nat.mod_eq_of_lt hs]
  exact hfinal

/-- C6 witness: the round-trip at a concrete 20-byte factory address,
2-byte init code and 5-byte signature. -/
theorem c6_metaSignature_roundtrip_witness :
    (List.replicate 20 17 : List Nat).length = 20 ∧
    ([1, 2, 3, 4, 5] : List Nat).length < 256 ^ 32 ∧
    96 + (abiBytesTail [222, 173]).length < 256 ^ 32 ∧
    unwrapSig (signMessageWrap true (List.replicate 20 17) [222, 173] [1, 2, 3, 4, 5])
      = [1, 2, 3, 4, 5] ∧
    signMessageWrap false (List.replicate 20 17) [222, 173] [1, 2, 3, 4, 5]
      = [1, 2, 3, 4, 5] := by
  have h := c6_metaSignature_roundtrip (List.replicate 20 17) [222, 173] [1, 2, 3, 4, 5]
    (by decide) (by decide) (by decide)
  exact ⟨by decide, by decide, by decide, h.1, h.2⟩

end ZeroDev
